import Mathlib

/-!
Verification development for the API-integration component of the
repository (source: src/learn/05_api_integration.py).

The Python code is shallowly embedded: HTTP transport behaviour is an
explicit input (`TransportResult`), JSON values are the inductive `JsonV`,
and Python expressions that can raise are modelled in `Except PyExc`.
A `try ... except` wrapper is modelled by matching on the `Except` value
of the try-block body.
-/

namespace BookApi

/-- JSON-like values, as produced by `response.json()` in the source. -/
inductive JsonV : Type
  | null
  | str (s : String)
  | num (n : Int)
  | arr (elems : List JsonV)
  | obj (fields : List (String × JsonV))

/-- Association-list lookup on object fields; models Python `dict` lookup
for JSON objects (keys assumed unique, as in a decoded JSON object). -/
def lookupJ : List (String × JsonV) → String → Option JsonV
  | [], _ => none
  | (k, v) :: rest, key => if k = key then some v else lookupJ rest key

/-- Python truthiness of a JSON value: empty string, zero, empty list,
empty dict and None are falsy; everything else is truthy. -/
def truthy : JsonV → Bool
  | .null => false
  | .str s => !(s = "")
  | .num n => !(n = 0)
  | .arr l => !l.isEmpty
  | .obj l => !l.isEmpty

/-- Exceptions that the embedded Python fragments can raise. -/
inductive PyExc : Type
  | timeoutErr      -- httpx.TimeoutException
  | requestErr      -- httpx.RequestException (connection failures etc.)
  | httpStatusErr   -- httpx.HTTPStatusError from raise_for_status
  | jsonDecodeErr   -- json.JSONDecodeError from response.json()
  | attributeErr    -- AttributeError (e.g. .get on a non-dict)
  | keyErr          -- KeyError (bad dict indexing)
  | typeErr         -- TypeError (bad subscripting / membership)
  | otherErr        -- any other exception
deriving DecidableEq

/-- Exceptions the transport itself (httpx.get / client.get) can raise. -/
inductive NetExc : Type
  | timeoutE
  | requestE
  | otherE
deriving DecidableEq

def netExcToPy : NetExc → PyExc
  | .timeoutE => .timeoutErr
  | .requestE => .requestErr
  | .otherE => .otherErr

/-- The observable behaviour of one HTTP request: either the call raised a
transport exception, or a response arrived with a status code and a body
whose JSON decoding either fails or yields a `JsonV`. -/
inductive TransportResult : Type
  | exc (e : NetExc)
  | resp (status : Nat) (body : Except Unit JsonV)

/-- Models `xs[0].get('name', dflt) if xs else dflt` where `xs` came from a
`.get(...)` on the record fragment. Exact Python semantics per shape:
a falsy value short-circuits to the default; a truthy list whose head is a
dict does the inner `.get`; a truthy list with a non-dict head raises
AttributeError (no `.get` attribute); a truthy dict raises KeyError on
`[0]`; a truthy string raises AttributeError (`s[0]` is a str, no `.get`);
a truthy number raises TypeError (not subscriptable). -/
def nameFromListJson (xs : JsonV) (dflt : String) : Except PyExc JsonV :=
  if truthy xs then
    match xs with
    | .arr (a :: _) =>
      match a with
      | .obj afields => .ok ((lookupJ afields "name").getD (.str dflt))
      | _ => .error .attributeErr
    | .arr [] => .error .attributeErr
    | .obj _ => .error .keyErr
    | .str _ => .error .attributeErr
    | .num _ => .error .typeErr
    | .null => .error .typeErr
  else .ok (.str dflt)

/-- The record built by the 200-branch of `fetch_book_info_sync` /
`fetch_book_info_async`: keys title, author, isbn, raw_data. -/
structure SyncRec : Type where
  title : JsonV
  author : JsonV
  isbn : String
  raw_data : JsonV

/-- The record built by `OpenLibraryAPI._parse_book_data`. -/
structure BookRec : Type where
  title : JsonV
  author : JsonV
  isbn : String
  publisher : JsonV
  publish_date : JsonV
  number_of_pages : JsonV
  raw_data : JsonV

/-- `OpenLibraryAPI._parse_book_data(book_data, isbn)`.  `.get` on a
non-dict raises AttributeError; otherwise title/authors/publishers/
publish_date/number_of_pages are extracted with the source's defaults. -/
def parse_book_data (book_data : JsonV) (isbn : String) : Except PyExc BookRec :=
  match book_data with
  | .obj fields =>
    match nameFromListJson ((lookupJ fields "authors").getD (.arr [])) "Bilinmeyen Yazar" with
    | .error e => .error e
    | .ok author =>
      match nameFromListJson ((lookupJ fields "publishers").getD .null) "Bilinmeyen Yayınevi" with
      | .error e => .error e
      | .ok publisher =>
        .ok { title := (lookupJ fields "title").getD (.str "Bilinmeyen Başlık")
              author := author
              isbn := isbn
              publisher := publisher
              publish_date := (lookupJ fields "publish_date").getD (.str "Bilinmeyen Tarih")
              number_of_pages := (lookupJ fields "number_of_pages").getD (.str "Bilinmeyen Sayfa")
              raw_data := book_data }
  | _ => .error .attributeErr

/-- The record extraction inside the 200-branch of `fetch_book_info_sync`:
title and author with defaults, isbn, raw_data. -/
def extractSyncRec (book_data : JsonV) (isbn : String) : Except PyExc SyncRec :=
  match book_data with
  | .obj fields =>
    match nameFromListJson ((lookupJ fields "authors").getD (.arr [])) "Bilinmeyen Yazar" with
    | .error e => .error e
    | .ok author =>
      .ok { title := (lookupJ fields "title").getD (.str "Bilinmeyen Başlık")
            author := author
            isbn := isbn
            raw_data := book_data }
  | _ => .error .attributeErr

/-- `needle` occurs as a contiguous substring of the second list. -/
def subCharList (needle : List Char) : List Char → Bool
  | [] => needle.isEmpty
  | c :: rest => needle.isPrefixOf (c :: rest) || subCharList needle rest

/-- Python `key in data` for a JSON value `data`: key membership for a
dict, element equality for a list, substring test for a string, and a
TypeError for numbers and None. -/
def jContains (data : JsonV) (key : String) : Except PyExc Bool :=
  match data with
  | .obj fields => .ok (lookupJ fields key).isSome
  | .arr elems => .ok (elems.any fun e => match e with | .str s => s = key | _ => false)
  | .str s => .ok (subCharList key.toList s.toList)
  | .num _ => .error .typeErr
  | .null => .error .typeErr

/-- Python `data[key]` for a string key: dict lookup (KeyError when
absent), TypeError on every other shape. -/
def jIndex (data : JsonV) (key : String) : Except PyExc JsonV :=
  match data with
  | .obj fields =>
    match lookupJ fields key with
    | some v => .ok v
    | none => .error .keyErr
  | _ => .error .typeErr

/-- The try-block body of `fetch_book_info_sync` (and, identically, of
`fetch_book_info_async`): the HTTP call, the `status_code == 200` test,
JSON decoding, the `isbn_key in data` test, indexing, and record
extraction.  Any raising step surfaces as `.error`. -/
def fetch_sync_body (isbn : String) (t : TransportResult) : Except PyExc (Option SyncRec) :=
  match t with
  | .exc e => .error (netExcToPy e)
  | .resp status body =>
    if status = 200 then
      match body with
      | .error _ => .error .jsonDecodeErr
      | .ok data =>
        match jContains data ("ISBN:" ++ isbn) with
        | .error e => .error e
        | .ok true =>
          match jIndex data ("ISBN:" ++ isbn) with
          | .error e => .error e
          | .ok book_data =>
            match extractSyncRec book_data isbn with
            | .error e => .error e
            | .ok r => .ok (some r)
        | .ok false => .ok none
    else .ok none

/-- `fetch_book_info_sync(isbn)`: the try-block body wrapped by except
clauses (TimeoutException, RequestException, JSONDecodeError, Exception)
that all return None. -/
def fetch_book_info_sync (isbn : String) (t : TransportResult) : Option SyncRec :=
  match fetch_sync_body isbn t with
  | .ok v => v
  | .error _ => none

/-- `fetch_book_info_async(isbn)`: same try-block logic as the sync
version; its single `except Exception` clause returns None. -/
def fetch_book_info_async (isbn : String) (t : TransportResult) : Option SyncRec :=
  match fetch_sync_body isbn t with
  | .ok v => v
  | .error _ => none

/-- The try-block body of `OpenLibraryAPI.get_book_by_isbn`: the HTTP
call, `raise_for_status()` (raises on any non-2xx status), JSON decoding,
the membership test, indexing, and `_parse_book_data`. -/
def get_book_body (isbn : String) (t : TransportResult) : Except PyExc (Option BookRec) :=
  match t with
  | .exc e => .error (netExcToPy e)
  | .resp status body =>
    if 200 ≤ status ∧ status ≤ 299 then
      match body with
      | .error _ => .error .jsonDecodeErr
      | .ok data =>
        match jContains data ("ISBN:" ++ isbn) with
        | .error e => .error e
        | .ok true =>
          match jIndex data ("ISBN:" ++ isbn) with
          | .error e => .error e
          | .ok frag =>
            match parse_book_data frag isbn with
            | .error e => .error e
            | .ok r => .ok (some r)
        | .ok false => .ok none
    else .error .httpStatusErr

/-- `OpenLibraryAPI.get_book_by_isbn(isbn)`: the body wrapped by its
catch-all `except Exception` clause, which returns None. -/
def get_book_by_isbn (isbn : String) (t : TransportResult) : Option BookRec :=
  match get_book_body isbn t with
  | .ok v => v
  | .error _ => none

/-- The observable behaviour of one iteration body of `fetch_with_retry`'s
loop (the `async with OpenLibraryAPI() as api: result = await
api.get_book_by_isbn(isbn)` block): it either raises into the loop's
`except` clause, or produces an optional record. -/
inductive Attempt (R : Type) : Type
  | raises
  | value (r : Option R)

/-- The loop of `fetch_with_retry`, instrumented: given the behaviour of
attempt `i` as `f i`, the attempt index `i`, the remaining iteration
count, and the current `delay` variable, return (number of attempts
performed, list of sleeps performed in order, returned value).  Mirrors
the source exactly: a truthy result returns immediately; a falsy (None)
result just continues the loop; an exception sleeps `delay` and doubles it
only when this is not the last iteration. -/
def retryGo {R : Type} (f : Nat → Attempt R) : Nat → Nat → ℚ → Nat × List ℚ × Option R
  | _, 0, _ => (0, [], none)
  | i, rem + 1, d =>
    match f i with
    | .value (some r) => (1, [], some r)
    | .value none =>
      let p := retryGo f (i + 1) rem d
      (p.1 + 1, p.2.1, p.2.2)
    | .raises =>
      if rem = 0 then (1, [], none)
      else
        let p := retryGo f (i + 1) rem (2 * d)
        (p.1 + 1, d :: p.2.1, p.2.2)

/-- `fetch_with_retry(isbn, max_retries, delay)` over an abstract
per-attempt behaviour `f`, instrumented with the attempt count and the
sleeps performed.  `for attempt in range(max_retries)` plus the final
`return None`. -/
def fetch_with_retry {R : Type} (f : Nat → Attempt R) (max_retries : Nat) (delay : ℚ) :
    Nat × List ℚ × Option R :=
  retryGo f 0 max_retries delay

/-- The per-attempt behaviour of the real `fetch_with_retry` body: it
calls `get_book_by_isbn`, which catches every exception internally, so the
attempt never raises and its value is whatever `get_book_by_isbn`
returns for the transport behaviour `t i` of attempt `i`. -/
def retryAttempt (t : Nat → TransportResult) (isbn : String) : Nat → Attempt BookRec :=
  fun i => .value (get_book_by_isbn isbn (t i))

/-- `fetch_with_retry` composed with the real per-attempt fetch. -/
def fetch_with_retry_pipeline (t : Nat → TransportResult) (isbn : String)
    (max_retries : Nat) (delay : ℚ) : Nat × List ℚ × Option BookRec :=
  fetch_with_retry (retryAttempt t isbn) max_retries delay

/-- The outcome of one gathered task in `fetch_multiple_books_async`
(`asyncio.gather(..., return_exceptions=True)`): either an exception
object, or the Optional record the coroutine returned. -/
inductive TaskRes (R : Type) : Type
  | exc
  | val (r : Option R)

/-- One step of the result-processing loop of
`fetch_multiple_books_async`: an exception is skipped (only printed), a
falsy (None) result is skipped, a truthy record is appended. -/
def processStep {R : Type} (acc : List R) (r : TaskRes R) : List R :=
  match r with
  | .exc => acc
  | .val none => acc
  | .val (some b) => acc ++ [b]

/-- The result-processing loop of `fetch_multiple_books_async`. -/
def processResults {R : Type} (results : List (TaskRes R)) : List R :=
  results.foldl processStep []

/-- `fetch_multiple_books_async(isbns)`: one task per isbn in input order,
gathered, then folded by the processing loop. -/
def fetch_multiple_books_async {R : Type} (task : String → TaskRes R) (isbns : List String) :
    List R :=
  processResults (isbns.map task)

/-- The list of successful records described by the specification: one
entry per task that returned a record, kept in input order. -/
def successListSpec {R : Type} (results : List (TaskRes R)) : List R :=
  results.filterMap fun r =>
    match r with
    | .val (some b) => some b
    | _ => none

/-! ### Concrete fixtures used by counterexamples and witnesses -/

/-- A reachable 200 response whose decoded body is an empty JSON object:
the service answers but the requested key is absent (confirmed absence). -/
def absentResp : TransportResult := .resp 200 (.ok (.obj []))

/-- A response body containing the record for key `ISBN:x` with only a
title field. -/
def bodyX : JsonV := .obj [("ISBN:x", .obj [("title", .str "T")])]

/-- The record `_parse_book_data` builds from the fragment of `bodyX`. -/
def bkT : BookRec :=
  { title := .str "T"
    author := .str "Bilinmeyen Yazar"
    isbn := "x"
    publisher := .str "Bilinmeyen Yayınevi"
    publish_date := .str "Bilinmeyen Tarih"
    number_of_pages := .str "Bilinmeyen Sayfa"
    raw_data := .obj [("title", .str "T")] }

/-- Transport for the backoff scenario: the service returns HTTP 500 on
attempts 0 and 1 and a good 200 response on attempt 2. -/
def failTwiceTransport : Nat → TransportResult :=
  fun i => if i < 2 then .resp 500 (.ok (.obj [])) else .resp 200 (.ok bodyX)

/-- Stub per-attempt behaviour that raises on attempts 0 and 1 and
returns a record on attempt 2. -/
def raiseTwiceStub : Nat → Attempt BookRec :=
  fun i => if i < 2 then .raises else .value (some bkT)

/-- Batch transport: keys 1 and 3 resolve to good 200 responses, key 2
always gets an HTTP 500 response (its pipeline always fails). -/
def batchTransport : String → TransportResult :=
  fun k =>
    if k = "1" then .resp 200 (.ok (.obj [("ISBN:1", .obj [("title", .str "A")])]))
    else if k = "2" then .resp 500 (.ok (.obj []))
    else .resp 200 (.ok (.obj [("ISBN:3", .obj [("title", .str "C")])]))

/-- The batch task built from the real per-key async fetch over
`batchTransport`; `fetch_book_info_async` never raises, so every task
resolves to a value. -/
def batchTask : String → TaskRes SyncRec :=
  fun k => .val (fetch_book_info_async k (batchTransport k))

/-- The record the batch pipeline produces for key 1. -/
def recA : SyncRec :=
  { title := .str "A", author := .str "Bilinmeyen Yazar", isbn := "1"
    raw_data := .obj [("title", .str "A")] }

/-- The record the batch pipeline produces for key 3. -/
def recC : SyncRec :=
  { title := .str "C", author := .str "Bilinmeyen Yazar", isbn := "3"
    raw_data := .obj [("title", .str "C")] }

/-- Abstract batch task over natural-number records: key 1 succeeds with
10, key 2's pipeline raises an uncaught exception, key 3 succeeds
with 30. -/
def excTask : String → TaskRes Nat :=
  fun k =>
    if k = "1" then .val (some 10)
    else if k = "2" then .exc
    else .val (some 30)

/-- Batch task used by the C2 witness: key a succeeds, key b raises, key c
succeeds. -/
def abcTask : String → TaskRes SyncRec :=
  fun k =>
    if k = "a" then .val (some recA)
    else if k = "b" then .exc
    else .val (some recC)

/-- A per-attempt behaviour that always returns None (the confirmed
absence value), as `get_book_by_isbn` does for an absent key. -/
def alwaysNone : Nat → Attempt BookRec := fun _ => .value none

/-! ## Helper lemmas -/

/-- If an object body decodes fine but the isbn key is absent, the wrapped
`get_book_by_isbn` returns None. -/
lemma get_book_absent (isbn : String) (fields : List (String × JsonV))
    (h : lookupJ fields ("ISBN:" ++ isbn) = none) :
    get_book_by_isbn isbn (.resp 200 (.ok (.obj fields))) = none := by
  simp [get_book_by_isbn, get_book_body, jContains, h]

/-- A transport exception makes `get_book_by_isbn` return None. -/
lemma get_book_exc (isbn : String) (e : NetExc) :
    get_book_by_isbn isbn (.exc e) = none := by
  cases e <;> rfl

/-- If every attempt resolves to the None value, the retry loop performs
all remaining iterations, sleeps never, and falls through to `return
None`. -/
lemma retryGo_value_none {R : Type} (f : Nat → Attempt R)
    (h : ∀ j, f j = .value none) :
    ∀ (rem i : Nat) (d : ℚ), retryGo f i rem d = (rem, [], none) := by
  intro rem
  induction rem with
  | zero => intro i d; rfl
  | succ n ih => intro i d; simp [retryGo, h i, ih (i + 1) d]

/-- If attempts `i, …, i+k-1` raise and attempt `i+k` returns a record,
the loop performs `k+1` attempts and sleeps `d, 2d, …, 2^(k-1)·d` between
consecutive attempts, never after the last one. -/
lemma retryGo_raises_run {R : Type} (f : Nat → Attempt R) (r : R) :
    ∀ (k i rem : Nat) (d : ℚ),
      (∀ j, j < k → f (i + j) = .raises) →
      f (i + k) = .value (some r) →
      k < rem →
      retryGo f i rem d = (k + 1, (List.range k).map (fun j => d * 2 ^ j), some r) := by
  intro k
  induction k with
  | zero =>
    intro i rem d _ hk hlt
    obtain ⟨n, rfl⟩ : ∃ n, rem = n + 1 := ⟨rem - 1, by omega⟩
    have hk0 : f i = .value (some r) := by simpa using hk
    simp [retryGo, hk0]
  | succ k ih =>
    intro i rem d h1 h2 hlt
    obtain ⟨n, rfl⟩ : ∃ n, rem = n + 1 := ⟨rem - 1, by omega⟩
    have h0 : f i = .raises := by simpa using h1 0 (Nat.succ_pos k)
    have hn : ¬ n = 0 := by omega
    have ih' := ih (i + 1) n (2 * d)
      (fun j hj => by
        have hh := h1 (j + 1) (by omega)
        have : i + (j + 1) = i + 1 + j := by omega
        rwa [this] at hh)
      (by
        have : i + (k + 1) = i + 1 + k := by omega
        rwa [this] at h2)
      (by omega)
    have hmap : d :: (List.range k).map (fun j => 2 * d * 2 ^ j)
        = (List.range (k + 1)).map (fun j => d * 2 ^ j) := by
      rw [List.range_succ_eq_map, List.map_cons, List.map_map]
      refine congrArg₂ _ (by ring) ?_
      refine List.map_congr_left fun x _ => ?_
      simp [Function.comp, pow_succ]
      ring
    simp only [retryGo, h0, ih', if_neg hn]
    rw [← hmap]

/-- The processing loop of the batch orchestrator produces exactly the
record of each successful task, in order. -/
lemma processStep_foldl {R : Type} :
    ∀ (l : List (TaskRes R)) (acc : List R),
      l.foldl processStep acc = acc ++ successListSpec l := by
  intro l
  induction l with
  | nil => intro acc; simp [successListSpec]
  | cons hd tl ih =>
    intro acc
    cases hd with
    | exc => simpa [successListSpec, processStep] using ih acc
    | val o =>
      cases o with
      | none => simpa [successListSpec, processStep] using ih acc
      | some b =>
        simp [successListSpec, processStep, ih (acc ++ [b])]

/-- `processResults` agrees with the specification-side success list. -/
lemma processResults_eq_spec {R : Type} (l : List (TaskRes R)) :
    processResults l = successListSpec l := by
  simpa using processStep_foldl l []

/-! ## Claim theorems -/

/-- C1, counterexample: for a key that is reachably absent (the service
answers 200 with a body not containing the key), `fetch_with_retry` with
`max_retries = 2` performs 2 attempts, not exactly one as the claim
states.  The result is the no-result value, and no delay occurs. -/
theorem C1_notfound_retry_counterexample :
    fetch_with_retry_pipeline (fun _ => absentResp) "x" 2 1 = (2, [], none)
    ∧ (2 : Nat) ≠ 1 :=
  ⟨rfl, by decide⟩

/-- C1, amended: a confirmed absence (every attempt gets a reachable 200
response whose body does not contain the key) is NOT terminal for
`fetch_with_retry`: the wrapper performs all `max_retries` attempts — with
no backoff delay between them, since the loop only sleeps on exceptions —
and finally returns the no-result value None. -/
theorem C1_notfound_retry_amended
    (t : Nat → TransportResult) (isbn : String) (m : Nat) (d : ℚ)
    (h : ∀ i, ∃ fields, t i = .resp 200 (.ok (.obj fields)) ∧
      lookupJ fields ("ISBN:" ++ isbn) = none) :
    fetch_with_retry_pipeline t isbn m d = (m, [], none) := by
  have hnone : ∀ i, retryAttempt t isbn i = .value none := by
    intro i
    obtain ⟨fields, hti, hlk⟩ := h i
    simp [retryAttempt, hti, get_book_absent isbn fields hlk]
  exact retryGo_value_none _ hnone m 0 d

/-- C1, witness: the amended claim at a concrete absent-key transport with
`max_retries = 3`. -/
theorem C1_notfound_retry_witness :
    fetch_with_retry_pipeline (fun _ => absentResp) "y" 3 1 = (3, [], none) :=
  C1_notfound_retry_amended (fun _ => absentResp) "y" 3 1 (fun _ => ⟨[], rfl, rfl⟩)

/-- C2, counterexample: with keys 1, 2, 3 where key 2's pipeline always
fails (HTTP 500) and keys 1 and 3 succeed, the batch returns only the two
successful records — a 2-element list, not a 3-element one-outcome-per-key
sequence. -/
theorem C2_batch_outcomes_counterexample :
    fetch_multiple_books_async batchTask ["1", "2", "3"] = [recA, recC]
    ∧ (fetch_multiple_books_async batchTask ["1", "2", "3"]).length = 2
    ∧ (2 : Nat) ≠ 3 :=
  ⟨rfl, rfl, by decide⟩

/-- C2, amended: the batch orchestrator returns one entry per SUCCESSFUL
key only, in input order; keys whose task returns None or raises are
dropped from the returned list.  For `[k1, k2, k3]` with `k2` failing and
`k1`, `k3` succeeding the result is the 2-element list `[r1, r3]`. -/
theorem C2_batch_outcomes_amended (task : String → TaskRes SyncRec)
    (k1 k2 k3 : String) (r1 r3 : SyncRec)
    (h1 : task k1 = .val (some r1))
    (h2 : task k2 = .val none ∨ task k2 = .exc)
    (h3 : task k3 = .val (some r3)) :
    fetch_multiple_books_async task [k1, k2, k3] = [r1, r3] := by
  rcases h2 with h2 | h2 <;>
    simp [fetch_multiple_books_async, processResults, processStep, h1, h2, h3]

/-- C2, witness: the amended claim at a concrete three-key task. -/
theorem C2_batch_outcomes_witness :
    fetch_multiple_books_async abcTask ["a", "b", "c"] = [recA, recC] :=
  C2_batch_outcomes_amended abcTask "a" "b" "c" recA recC rfl (Or.inr rfl) rfl

/-- C3, counterexample: with a fetcher whose transport raises a network
error on every attempt, the retry pipeline returns exactly the same value
as the confirmed-absence pipeline — the bare no-result value None, with no
error kind attached — so the exhausted failure IS silently converted to
the absence result. -/
theorem C3_exhausted_failure_counterexample :
    fetch_with_retry_pipeline (fun _ => .exc .requestE) "x" 3 1
      = fetch_with_retry_pipeline (fun _ => absentResp) "x" 3 1
    ∧ (fetch_with_retry_pipeline (fun _ => .exc .requestE) "x" 3 1).2.2 = none :=
  ⟨rfl, rfl⟩

/-- C3, amended: when every attempt fails with a network error, the
pipeline performs all `max_retries` attempts (the error is swallowed
inside `get_book_by_isbn`, so the loop sees None and does not even sleep)
and returns None — a value carrying no error kind and identical to the
confirmed-absence result. -/
theorem C3_exhausted_failure_amended (t : Nat → TransportResult) (isbn : String)
    (m : Nat) (d : ℚ) (h : ∀ i, t i = .exc .requestE) :
    fetch_with_retry_pipeline t isbn m d = (m, [], none)
    ∧ fetch_with_retry_pipeline t isbn m d
      = fetch_with_retry_pipeline (fun _ => absentResp) isbn m d := by
  have hnone : ∀ i, retryAttempt t isbn i = .value none := by
    intro i; simp [retryAttempt, h i, get_book_exc]
  have habs : ∀ i, retryAttempt (fun _ => absentResp) isbn i = .value none := by
    intro i; simp [retryAttempt, absentResp, get_book_absent isbn [] rfl]
  have e1 : fetch_with_retry_pipeline t isbn m d = (m, [], none) :=
    retryGo_value_none _ hnone m 0 d
  have e2 : fetch_with_retry_pipeline (fun _ => absentResp) isbn m d = (m, [], none) :=
    retryGo_value_none _ habs m 0 d
  exact ⟨e1, e1.trans e2.symm⟩

/-- C3, witness: the amended claim at a concrete always-network-error
transport with `max_retries = 2`. -/
theorem C3_exhausted_failure_witness :
    fetch_with_retry_pipeline (fun _ => .exc .requestE) "y" 2 1 = (2, [], none)
    ∧ fetch_with_retry_pipeline (fun _ => .exc .requestE) "y" 2 1
      = fetch_with_retry_pipeline (fun _ => absentResp) "y" 2 1 :=
  C3_exhausted_failure_amended (fun _ => .exc .requestE) "y" 2 1 (fun _ => rfl)

/-- C4, counterexample: a fetcher whose transport fails twice (HTTP 500)
then succeeds, with `max_retries = 3` and initial delay 1, returns the
record after 3 attempts but with NO delays at all — not the claimed two
delays `d` and `2d` — because `get_book_by_isbn` converts every failure to
None and the loop retries None immediately without sleeping. -/
theorem C4_backoff_counterexample :
    fetch_with_retry_pipeline failTwiceTransport "x" 3 1 = (3, [], some bkT)
    ∧ ([] : List ℚ) ≠ [1, 2] :=
  ⟨rfl, by simp⟩

/-- C4, amended: the exponential backoff applies only to attempts that
fail by RAISING into the retry loop: if attempts `0, …, k-1` raise and
attempt `k` succeeds (`k < m`), the loop performs `k+1` attempts with the
delays `d, 2d, …, 2^(k-1)·d` between consecutive attempts and none after
the last; attempts that fail by returning None (as every fetch error
surfaced by `get_book_by_isbn` does) are retried with no delay at all. -/
theorem C4_backoff_amended :
    (∀ (f : Nat → Attempt BookRec) (k m : Nat) (d : ℚ) (r : BookRec),
      (∀ j, j < k → f j = .raises) → f k = .value (some r) → k < m →
      fetch_with_retry f m d = (k + 1, (List.range k).map (fun j => d * 2 ^ j), some r))
    ∧ (∀ (f : Nat → Attempt BookRec) (m : Nat) (d : ℚ),
      (∀ j, f j = .value none) → fetch_with_retry f m d = (m, [], none)) := by
  constructor
  · intro f k m d r h1 h2 hlt
    exact retryGo_raises_run f r k 0 m d (fun j hj => by simpa using h1 j hj)
      (by simpa using h2) hlt
  · intro f m d h
    exact retryGo_value_none f h m 0 d

/-- C4, witness: the amended claim at the concrete raise-twice stub
(3 attempts, delays 1 and 2, success) and at an always-None fetcher
(4 attempts, no delays). -/
theorem C4_backoff_witness :
    fetch_with_retry raiseTwiceStub 3 1 = (3, [1, 2], some bkT)
    ∧ fetch_with_retry alwaysNone 4 5 = (4, [], none) := by
  constructor
  · have h := C4_backoff_amended.1 raiseTwiceStub 2 3 1 bkT
      (fun j hj => by simp [raiseTwiceStub, hj])
      (by simp [raiseTwiceStub]) (by omega)
    rw [h]
    simp [List.range_succ]
  · exact C4_backoff_amended.2 alwaysNone 4 5 (fun _ => rfl)

/-- C5, counterexample: a 2xx status other than 200 (here 201) with a
decodable body containing the key yields None, not a success; the same
body under 200 yields the parsed record. -/
theorem C5_status_class_counterexample :
    fetch_book_info_sync "x" (.resp 201 (.ok bodyX)) = none
    ∧ fetch_book_info_sync "x" (.resp 200 (.ok bodyX))
      = some { title := .str "T", author := .str "Bilinmeyen Yazar", isbn := "x",
               raw_data := .obj [("title", .str "T")] } :=
  ⟨rfl, rfl⟩

/-- C5, amended: the sync fetcher classifies by the single status code
200, not by status class: any status different from 200 — including other
2xx codes — yields the no-result value None; a 200 response whose
decodable body contains the key as a well-formed fragment yields the
parsed record. -/
theorem C5_status_class_amended (isbn : String) (s : Nat) (b : Except Unit JsonV) :
    (s ≠ 200 → fetch_book_info_sync isbn (.resp s b) = none)
    ∧ (∀ title : String,
      fetch_book_info_sync isbn
        (.resp 200 (.ok (.obj [("ISBN:" ++ isbn, .obj [("title", .str title)])])))
      = some { title := .str title, author := .str "Bilinmeyen Yazar", isbn := isbn,
               raw_data := .obj [("title", .str title)] }) := by
  constructor
  · intro h
    simp [fetch_book_info_sync, fetch_sync_body, h]
  · intro title
    simp [fetch_book_info_sync, fetch_sync_body, jContains, jIndex, extractSyncRec,
      nameFromListJson, truthy, lookupJ]

/-- C5, witness: the amended claim at status 201 (a 2xx that is not 200)
and at a concrete 200 response. -/
theorem C5_status_class_witness :
    fetch_book_info_sync "w" (.resp 201 (.ok .null)) = none
    ∧ fetch_book_info_sync "w"
        (.resp 200 (.ok (.obj [("ISBN:w", .obj [("title", .str "Z")])])))
      = some { title := .str "Z", author := .str "Bilinmeyen Yazar", isbn := "w",
               raw_data := .obj [("title", .str "Z")] } :=
  ⟨(C5_status_class_amended "w" 201 (.ok .null)).1 (by decide),
   (C5_status_class_amended "w" 200 (.ok .null)).2 "Z"⟩

/-- C6: for every mapping fragment whose optional `authors` and
`publishers` fields are missing or empty lists, `_parse_book_data` raises
nothing and returns the record with the documented defaults: the
unknown-author default for the author, the unknown-title default when the
title is missing, and the remaining fields defaulted likewise. -/
theorem C6_parse_defaults (fields : List (String × JsonV)) (isbn : String)
    (ha : lookupJ fields "authors" = none ∨ lookupJ fields "authors" = some (.arr []))
    (hp : lookupJ fields "publishers" = none ∨ lookupJ fields "publishers" = some (.arr [])) :
    parse_book_data (.obj fields) isbn
      = .ok { title := (lookupJ fields "title").getD (.str "Bilinmeyen Başlık")
              author := .str "Bilinmeyen Yazar"
              isbn := isbn
              publisher := .str "Bilinmeyen Yayınevi"
              publish_date := (lookupJ fields "publish_date").getD (.str "Bilinmeyen Tarih")
              number_of_pages := (lookupJ fields "number_of_pages").getD (.str "Bilinmeyen Sayfa")
              raw_data := .obj fields } := by
  rcases ha with ha | ha <;> rcases hp with hp | hp <;>
    simp [parse_book_data, nameFromListJson, truthy, ha, hp]

/-- C6, witness: parsing a fragment holding only a title field Dune yields
title Dune and the unknown-author default. -/
theorem C6_parse_defaults_witness :
    parse_book_data (.obj [("title", .str "Dune")]) "i"
      = .ok { title := .str "Dune", author := .str "Bilinmeyen Yazar", isbn := "i",
              publisher := .str "Bilinmeyen Yayınevi", publish_date := .str "Bilinmeyen Tarih",
              number_of_pages := .str "Bilinmeyen Sayfa",
              raw_data := .obj [("title", .str "Dune")] } :=
  C6_parse_defaults [("title", .str "Dune")] "i" (Or.inl rfl) (Or.inl rfl)

/-- C7: the sync fetcher never propagates an exception across its
boundary: every exception raised by its try-block body is converted by the
except clauses to the returned value None, and the only way the call
yields a record is a normal (non-raising) return of that record. -/
theorem C7_no_exception_escape (isbn : String) (t : TransportResult) :
    (∀ e, fetch_sync_body isbn t = .error e → fetch_book_info_sync isbn t = none)
    ∧ (∀ r, fetch_book_info_sync isbn t = some r →
        fetch_sync_body isbn t = .ok (some r)) := by
  constructor
  · intro e he
    simp [fetch_book_info_sync, he]
  · intro r hr
    unfold fetch_book_info_sync at hr
    cases h : fetch_sync_body isbn t with
    | ok v =>
      rw [h] at hr
      simp only [] at hr
      rw [hr]
    | error e =>
      rw [h] at hr
      exact absurd hr (by simp)

/-- C7, witness: a transport timeout raises inside the body and the
wrapped fetch returns None. -/
theorem C7_no_exception_escape_witness :
    fetch_sync_body "x" (.exc .timeoutE) = .error .timeoutErr
    ∧ fetch_book_info_sync "x" (.exc .timeoutE) = none :=
  ⟨rfl, (C7_no_exception_escape "x" (.exc .timeoutE)).1 .timeoutErr rfl⟩

/-- C8, counterexample: with keys 1, 2, 3 where key 2's task raises an
uncaught exception and keys 1, 3 succeed, the batch returns the 2-element
list of the other keys' records: the exception is NOT represented by a
failure outcome of its own in the returned list. -/
theorem C8_fault_isolation_counterexample :
    fetch_multiple_books_async excTask ["1", "2", "3"] = [10, 30]
    ∧ (fetch_multiple_books_async excTask ["1", "2", "3"]).length = 2
    ∧ (2 : Nat) ≠ 3 :=
  ⟨rfl, rfl, by decide⟩

/-- C8, amended: an uncaught exception in one task does not abort the
batch and leaves every other key's contribution exactly as it would be in
isolation — the processing loop of the surrounding keys is unchanged — but
the failing key contributes no entry at all to the returned list. -/
theorem C8_fault_isolation_amended (R : Type) (xs ys : List (TaskRes R)) :
    processResults (xs ++ .exc :: ys) = processResults xs ++ processResults ys := by
  simp [processResults_eq_spec, successListSpec, List.filterMap_append]

/-- C9: the batch orchestrator returns exactly the successful records (one
per task that returned a record, exceptions and None dropped) in input
order; hence its length is at most the number of keys and it is empty for
an empty input. -/
theorem C9_batch_successes (R : Type) (task : String → TaskRes R) (isbns : List String) :
    fetch_multiple_books_async task isbns = successListSpec (isbns.map task)
    ∧ (fetch_multiple_books_async task isbns).length ≤ isbns.length
    ∧ fetch_multiple_books_async task [] = [] := by
  refine ⟨processResults_eq_spec _, ?_, rfl⟩
  rw [show fetch_multiple_books_async task isbns = successListSpec (isbns.map task) from
    processResults_eq_spec _]
  calc (successListSpec (isbns.map task)).length
      ≤ (isbns.map task).length := List.length_filterMap_le _ _
    _ = isbns.length := List.length_map _ _

/-- C10: calling `fetch_with_retry` with `max_retries = 0` returns None
after zero attempts and zero delays, and the result does not depend on the
fetcher or the delay at all (no fetch is performed). -/
theorem C10_zero_retries (R : Type) (f g : Nat → Attempt R) (d e : ℚ) :
    fetch_with_retry f 0 d = (0, [], none)
    ∧ fetch_with_retry f 0 d = fetch_with_retry g 0 e :=
  ⟨rfl, rfl⟩

end BookApi
